import Mathlib

/-!
Shallow embedding of the transfer-coordination core of the `librarian`
repository, together with theorems settling the specification claims.

Conventions:
* Python machine integers are modelled as `Int` or `Nat` (no overflow is
  relevant anywhere in this code).
* Fallible request handlers become functions into `Except`.
* Database tables become Lean lists of rows; catalog sessions become
  explicit state passing.
* Wall-clock times are abstract `Nat` values threaded as a `now` parameter.
-/

namespace Librarian

/-- `hera_librarian.transfer.TransferStatus` (also used for the states of
`OutgoingTransfer` and `IncomingTransfer` rows, §4.3 of the design). -/
inductive TransferStatus where
  | INITIATED
  | ONGOING
  | STAGED
  | COMPLETED
  | FAILED
  | CANCELLED
deriving DecidableEq, Repr

/-- `hera_librarian.errors.ErrorSeverity` as consumed by
`librarian_server/logger.py`. -/
inductive ErrorSeverity where
  | CRITICAL
  | ERROR
  | WARNING
  | INFO
deriving DecidableEq, Repr

/-- `hera_librarian.errors.ErrorCategory` (the values used by the embedded
code paths). -/
inductive ErrorCategory where
  | LIBRARIAN_NETWORK_AVAILABILITY
  | DATA_AVAILABILITY
  | TRANSFER
  | PROGRAMMING
  | STORE
deriving DecidableEq, Repr

/-- A row of the append-only `Error` table, as created by
`log_to_database` in `librarian_server/logger.py`. -/
structure ErrorRow where
  severity : ErrorSeverity
  category : ErrorCategory
  message : String
deriving DecidableEq, Repr

/-- `log_to_database(severity, category, message, session)` from
`librarian_server/logger.py`: writes a log line (not modelled) and appends
an `Error` row to the database.  Note that `session` is a required
positional parameter with no default. -/
def log_to_database (severity : ErrorSeverity) (category : ErrorCategory)
    (message : String) (errors : List ErrorRow) : List ErrorRow :=
  errors ++ [⟨severity, category, message⟩]

/-! ## Store recommendation (`src/server/librarian_server/store.py`) -/

/-- A `Store` row of the old server (`server/librarian_server/store.py`):
name / ssh_host / path_prefix columns plus the `available` flag.
`space` is the value `store.get_space_info()['available']` would report. -/
structure RStore where
  id : Nat
  name : String
  ssh_host : String
  path_prefix : String
  available : Bool
  space : Int
deriving DecidableEq, Repr

/-- Errors raised by the embedded Python code.  `serverError` is
`webutil.ServerError` (carrying its format string); `nameError` models
Python's `NameError` for an unbound local variable; `notStaged` is the
store-manager failure for a missing staged path (§4.1 of the spec);
`typeError` / `valueError` are the built-in Python exceptions. -/
inductive PyErr where
  | serverError (fmt : String)
  | nameError
  | notStaged
  | typeError (msg : String)
  | valueError (msg : String)
  | notImplementedError (msg : String)
  | validationError
deriving DecidableEq, Repr

/-- The JSON dictionary returned by `recommended_store`. -/
structure RecommendedStoreInfo where
  name : String
  ssh_host : String
  path_prefix : String
  available : Int
deriving DecidableEq, Repr

/-- The accumulator of the `for store in Store.query.filter(Store.available)`
loop in `recommended_store`: `most_avail`, `most_avail_store`, and the loop
variable `store` itself (which leaks out of the loop in Python and is read
after it). -/
structure RecLoopAcc where
  most_avail : Int
  most_avail_store : Option RStore
  last : Option RStore
deriving Repr

/-- One iteration of the loop body of `recommended_store`:
`avail = store.get_space_info()['available']; if avail > most_avail: ...`. -/
def recLoopStep (acc : RecLoopAcc) (store : RStore) : RecLoopAcc :=
  if store.space > acc.most_avail then
    { most_avail := store.space, most_avail_store := some store, last := some store }
  else
    { acc with last := some store }

/-- `recommended_store` from `server/librarian_server/store.py`.  The stores
list is the query result in database iteration order; the handler filters on
`Store.available`, folds the loop above starting from `most_avail = -1`,
raises `ServerError` when `most_avail < file_size` or no store was seen, and
otherwise builds the response dictionary from the *loop variable* `store`
(the last store iterated), not from `most_avail_store`. -/
def recommended_store (stores : List RStore) (file_size : Int) :
    Except PyErr RecommendedStoreInfo :=
  if file_size < 0 then
    .error (.serverError "\"file_size\" must be nonnegative")
  else
    let acc := (stores.filter (·.available)).foldl recLoopStep
      { most_avail := -1, most_avail_store := none, last := none }
    if acc.most_avail < file_size ∨ acc.most_avail_store.isNone then
      .error (.serverError "unable to find a store able to hold %d bytes")
    else
      match acc.last with
      | some store =>
          .ok { name := store.name, ssh_host := store.ssh_host,
                path_prefix := store.path_prefix, available := acc.most_avail }
      | none => .error .nameError

/-! ## `complete_upload` (`src/server/librarian_server/store.py`) -/

/-- The dictionary returned by `store.get_info_for_path` for a staged
upload: the `type`, `size` and `md5` entries read by `complete_upload`. -/
structure UploadPathInfo where
  ptype : String
  size : Int
  md5 : String
deriving DecidableEq, Repr

/-- A store as seen by the upload endpoint: the catalog row (id, name) plus
its filesystem contents.  Modelled from the spec: the store-manager side
(`hera_librarian.store.Store`, providing `get_info_for_path`, `_move` and
`_delete`) is not among the given sources; per §4.1 the staging area and the
final area are finite maps from path to file content, `_move` atomically
moves a staged path to a final path, and `_delete` removes a staged path. -/
structure UStore where
  id : Nat
  name : String
  staging : List (String × UploadPathInfo)
  files : List (String × UploadPathInfo)
deriving DecidableEq, Repr

/-- An `Observation` row (the two constructor arguments `complete_upload`
passes; `start_jd` is an opaque stand-in for the float, never computed
with). -/
structure ObservationRow where
  obsid : Int
  start_jd : Int
deriving DecidableEq, Repr

/-- A `File` row of the old server, with the constructor arguments used by
`complete_upload`. -/
structure FileRowU where
  name : String
  ftype : String
  obsid : Int
  source : Option String
  size : Int
  md5 : String
  create_time : Option Int
deriving DecidableEq, Repr

/-- A `FileInstance` row: its composite primary key
`(store.id, parent_dirs, name)` — exactly the constructor arguments used by
`complete_upload`. -/
abbrev InstKey := Nat × String × String

/-- The catalog state touched by `complete_upload`. -/
structure UState where
  stores : List UStore
  observations : List ObservationRow
  files : List FileRowU
  instances : List InstKey
deriving DecidableEq, Repr

/-- Lookup in a path-keyed map. -/
def alookup (l : List (String × UploadPathInfo)) (k : String) :
    Option UploadPathInfo :=
  (l.find? (fun p => p.1 == k)).map (·.2)

/-- `Store.get_by_name` from `server/librarian_server/store.py`. -/
def getByName (stores : List UStore) (name : String) : Except PyErr UStore :=
  match stores.filter (fun s => s.name == name) with
  | [] => .error (.serverError "No such store %r")
  | [s] => .ok s
  | _ :: _ :: _ =>
      .error (.serverError "Internal error: multiple stores with name %r")

/-- `os.path.basename`: the part of the path after the last `/` (the whole
path when it has no `/`). -/
def pathBasename (p : String) : String :=
  String.mk (p.toList.foldl (fun acc c => if c = '/' then [] else acc ++ [c]) [])

/-- The characters before the last `/` of a path, or `none` when the path
has no `/`. -/
def dirnameChars : List Char → Option (List Char)
  | [] => none
  | c :: cs =>
    match dirnameChars cs with
    | some rest => some (c :: rest)
    | none => if c = '/' then some [] else none

/-- `os.path.dirname`: everything before the last `/`, and `""` for a bare
name (the paths used here are relative, multi-segment store paths). -/
def pathDirname (p : String) : String :=
  match dirnameChars p.toList with
  | some l => String.mk l
  | none => ""

/-- `db.session.merge` for an `Observation` row (upsert keyed by `obsid`). -/
def mergeObs (o : ObservationRow) (l : List ObservationRow) :
    List ObservationRow :=
  if l.any (fun r => r.obsid == o.obsid) then
    l.map (fun r => if r.obsid == o.obsid then o else r)
  else l ++ [o]

/-- `db.session.merge` for a `File` row (upsert keyed by `name`). -/
def mergeFile (f : FileRowU) (l : List FileRowU) : List FileRowU :=
  if l.any (fun r => r.name == f.name) then
    l.map (fun r => if r.name == f.name then f else r)
  else l ++ [f]

/-- `db.session.merge` for a `FileInstance` row (upsert on its key). -/
def mergeInst (k : InstKey) (l : List InstKey) : List InstKey :=
  if l.contains k then l else l ++ [k]

/-- Write an updated store object back into the catalog's store list. -/
def updateStore (stores : List UStore) (s : UStore) : List UStore :=
  stores.map (fun t => if t.id == s.id then s else t)

/-- `store._delete(stage_path)`: remove the staged path. -/
def storeDelete (s : UStore) (path : String) : UStore :=
  { s with staging := s.staging.filter (fun p => !(p.1 == path)) }

/-- `store._move(stage_path, dest_store_path)`: move the staged content to
its final home (the caller has already probed that `src` is staged). -/
def storeMove (s : UStore) (src dst : String) : UStore :=
  match alookup s.staging src with
  | some info =>
      { s with staging := s.staging.filter (fun p => !(p.1 == src)),
               files := s.files ++ [(dst, info)] }
  | none => s

/-- The request arguments of `complete_upload`. -/
structure UploadArgs where
  store_name : String
  size : Int
  md5 : String
  obsid : Int
  start_jd : Int
  dest_store_path : String
  create_time_unix : Option Int
deriving DecidableEq, Repr

/-- `stage_path = 'upload_%s_%s.staging' % (expected_size, expected_md5)`. -/
def stagePathFor (size : Int) (md5 : String) : String :=
  "upload_" ++ toString size ++ "_" ++ md5 ++ ".staging"

/-- `complete_upload` from `server/librarian_server/store.py`.  Looks up the
store, probes the staged file (the `try/except` around `get_info_for_path`
is commented out in the source, so a missing staged file raises), validates
size and md5, returns early — deleting only the staged copy — when the
intended `FileInstance` already exists, and otherwise moves the staged file
into place and merges the `Observation`/`File`/`FileInstance` rows. -/
def complete_upload (st : UState) (args : UploadArgs)
    (sourcename : Option String) : Except PyErr UState :=
  match getByName st.stores args.store_name with
  | .error e => .error e
  | .ok store =>
    let stage_path := stagePathFor args.size args.md5
    match alookup store.staging stage_path with
    | none => .error .notStaged
    | some info =>
      if info.size ≠ args.size then
        .error (.serverError
          "cannot complete upload to %s:%s: expected size %d; observed %d")
      else if info.md5 ≠ args.md5 then
        .error (.serverError
          "cannot complete upload to %s:%s: expected MD5 %s; observed %s")
      else
        let parent_dirs := pathDirname args.dest_store_path
        let name := pathBasename args.dest_store_path
        if st.instances.contains (store.id, parent_dirs, name) then
          .ok { st with stores := updateStore st.stores (storeDelete store stage_path) }
        else
          let store' := storeMove store stage_path args.dest_store_path
          let obs : ObservationRow := ⟨args.obsid, args.start_jd⟩
          let file : FileRowU :=
            ⟨name, info.ptype, args.obsid, sourcename, info.size, info.md5,
             args.create_time_unix⟩
          .ok { stores := updateStore st.stores store',
                observations := mergeObs obs st.observations,
                files := mergeFile file st.files,
                instances := mergeInst (store.id, parent_dirs, name) st.instances }

/-- The client re-uploads the staged copy before retrying
`complete_upload`: add a staged entry to the named store.  (This is the
precondition of the idempotent retry: `complete_upload` reads the staged
file before checking for an existing `FileInstance`.) -/
def restageUpload (st : UState) (store_name stage_path : String)
    (info : UploadPathInfo) : UState :=
  { st with stores := st.stores.map (fun s =>
      if s.name == store_name then
        { s with staging := s.staging ++ [(stage_path, info)] }
      else s) }

/-! ## Send-queue tasks (`src/librarian_background/queues.py`) -/

/-- An `OutgoingTransfer` row (the fields the queue tasks touch). -/
structure OutgoingTransfer where
  id : Nat
  status : TransferStatus
  source_path : String
  dest_path : String
deriving DecidableEq, Repr

/-- Outcome of contacting the destination librarian inside
`SendQueue.update_transfer_status`.  The `SendQueue` ORM class
(`librarian_server/orm/sendqueue.py`) is not among the given sources; per
the exception handlers in `check_on_consumed`, the peer contact either
succeeds, raises `LibrarianError` when the peer is unavailable, or raises
`AttributeError` when the destination librarian is missing from the
catalog. -/
inductive PeerLookup where
  | ok
  | unavailable
  | missingFromCatalog
deriving DecidableEq, Repr

/-- A `SendQueue` row.  `probeStatus` is the (idempotent) result of
`async_transfer_manager.transfer_status(settings)`, and `batchSucceeds` the
result of `async_transfer_manager.batch_transfer(...)`: the transfer
manager is an opaque collaborator (§4.2), so its two probe results are
carried as data on the item.  `peer` is the outcome of contacting the
destination librarian (see `PeerLookup`). -/
structure SendQueueItem where
  id : Nat
  destination : String
  priority : Int
  created_time : Int
  consumed : Bool
  consumed_time : Option Int
  completed : Bool
  completed_time : Option Int
  retries : Nat
  failed : Bool
  transfers : List OutgoingTransfer
  probeStatus : TransferStatus
  batchSucceeds : Bool
  peer : PeerLookup
deriving DecidableEq, Repr

/-- Exceptions distinguished by the handlers inside `check_on_consumed`. -/
inductive UTSErr where
  | librarianError
  | attributeError
deriving DecidableEq, Repr

/-- Modelled from the spec: `SendQueue.update_transfer_status`
(`librarian_server/orm/sendqueue.py`, not among the sources).  Per §4.5 it
sets each child `OutgoingTransfer` to the new status after contacting the
destination librarian; a network/availability failure raises
`LibrarianError` and a destination librarian missing from the catalog
raises `AttributeError`. -/
def SendQueueItem.update_transfer_status (q : SendQueueItem)
    (newStatus : TransferStatus) : Except UTSErr SendQueueItem :=
  match q.peer with
  | .ok =>
      let ts := q.transfers.map (fun t => { t with status := newStatus })
      .ok { q with transfers := ts }
  | .unavailable => .error .librarianError
  | .missingFromCatalog => .error .attributeError

/-- Modelled from the spec: `OutgoingTransfer.fail_transfer` and
`SendQueue.fail` (§4.4 step 6: `fail()` fails every child
`OutgoingTransfer` (→ FAILED) and marks the row `failed=true,
completed=true`). -/
def SendQueueItem.fail (q : SendQueueItem) : SendQueueItem :=
  { q with failed := true, completed := true,
           transfers := q.transfers.map (fun t => { t with status := .FAILED }) }

/-- The selection filter of `check_on_consumed`:
`consumed=True ∧ completed=False`. -/
def checkConsumedSelect (q : SendQueueItem) : Bool :=
  q.consumed && !q.completed

/-- One iteration of the `for queue_item in queue_items` loop of
`check_on_consumed`: returns the updated item and error rows, or the
exception that escapes the iteration.  In the branch for a destination
librarian missing from the catalog, the source calls `log_to_database`
*without* its required `session` argument, so Python raises `TypeError` at
the call site (before any CRITICAL row is written). -/
def checkOnConsumedItem (now : Int) (complete_status : TransferStatus)
    (q : SendQueueItem) (errors : List ErrorRow) :
    Except PyErr (SendQueueItem × List ErrorRow) :=
  if q.probeStatus = .INITIATED then
    .ok (q, errors)
  else if q.probeStatus = .COMPLETED then
    if complete_status = .STAGED then
      match q.update_transfer_status complete_status with
      | .ok q' =>
          .ok ({ q' with completed := true, completed_time := some now }, errors)
      | .error .librarianError =>
          .ok (q, log_to_database .WARNING .LIBRARIAN_NETWORK_AVAILABILITY
            "Librarian was not available for contact. We will try again later."
            errors)
      | .error .attributeError =>
          .error (.typeError
            "log_to_database() missing 1 required positional argument: session")
    else
      .error (.valueError
        "No other status than STAGED is supported for checking on consumed")
  else if q.probeStatus = .FAILED then
    .ok ({ q with
           transfers := q.transfers.map (fun t => { t with status := .FAILED }),
           completed := true, completed_time := some now }, errors)
  else
    .ok (q, log_to_database .WARNING .TRANSFER
      "Incompatible return value for transfer status from SendQueue item."
      errors)

/-- The overall outcome of one `check_on_consumed` call: the queue rows as
committed so far, the `Error` rows written, the exception that propagated
(if any), and the Python return value (if it returned normally). -/
structure CheckOutcome where
  queue : List SendQueueItem
  errors : List ErrorRow
  raised : Option PyErr
  returned : Option Bool
deriving DecidableEq, Repr

/-- The item loop of `check_on_consumed`: each selected item is processed
and committed in turn; an exception aborts the loop, leaving later rows
untouched (earlier per-item commits stand). -/
def checkOnConsumedGo (now : Int) (complete_status : TransferStatus) :
    List SendQueueItem → List ErrorRow →
    (List SendQueueItem × List ErrorRow × Option PyErr)
  | [], errors => ([], errors, none)
  | q :: rest, errors =>
    if checkConsumedSelect q then
      match checkOnConsumedItem now complete_status q errors with
      | .error e => (q :: rest, errors, some e)
      | .ok (q', errors') =>
          let (rest', errors'', raised) :=
            checkOnConsumedGo now complete_status rest errors'
          (q' :: rest', errors'', raised)
    else
      let (rest', errors', raised) :=
        checkOnConsumedGo now complete_status rest errors
      (q :: rest', errors', raised)

/-- `check_on_consumed` from `librarian_background/queues.py` (with the
soft deadline not reached; the deadline merely truncates the loop).
Returns `False` without touching anything when no row matches
`consumed=True ∧ completed=False`, else walks the matching rows. -/
def check_on_consumed (now : Int) (items : List SendQueueItem)
    (complete_status : TransferStatus) : CheckOutcome :=
  if (items.filter checkConsumedSelect).isEmpty then
    { queue := items, errors := [], raised := none, returned := some false }
  else
    let (items', errors, raised) := checkOnConsumedGo now complete_status items []
    { queue := items', errors := errors, raised := raised,
      returned := if raised.isNone then some true else none }

/-- The selection filter of `consume_queue_item`:
`completed=False ∧ consumed=False`. -/
def consumeSelect (q : SendQueueItem) : Bool :=
  !q.completed && !q.consumed

/-- `ORDER BY priority DESC, created_time ASC`: `a` strictly precedes `b`. -/
def queueOrderLt (a b : SendQueueItem) : Bool :=
  a.priority > b.priority ||
    (a.priority == b.priority && a.created_time < b.created_time)

/-- The `SELECT ... ORDER BY priority DESC, created_time ASC ... .scalar()`
of `consume_queue_item`: the first selectable item in that order (ties
resolved by list position). -/
def selectBestIdx : List SendQueueItem → Option (Nat × SendQueueItem)
  | [] => none
  | q :: rest =>
    match selectBestIdx rest with
    | none => if consumeSelect q then some (0, q) else none
    | some (i, p) =>
        if consumeSelect q then
          if queueOrderLt p q then some (i + 1, p) else some (0, q)
        else some (i + 1, p)

/-- `consume_queue_item` from `librarian_background/queues.py`.  Picks the
oldest highest-priority unconsumed row; on `batch_transfer` success marks
it consumed (persisting the manager state back — the manager is opaque
here); on failure increments `retries`, and invokes `fail()` once
`retries > max_async_send_retries`.  Returns `False` iff there was nothing
to consume. -/
def consume_queue_item (now : Int) (maxRetries : Nat)
    (items : List SendQueueItem) : List SendQueueItem × Bool :=
  match selectBestIdx items with
  | none => (items, false)
  | some (i, q) =>
    let q' :=
      if q.batchSucceeds then
        { q with consumed := true, consumed_time := some now }
      else
        let q1 := { q with retries := q.retries + 1 }
        if q1.retries > maxRetries then q1.fail else q1
    (items.set i q', true)

/-- `n` invocations of `consume_queue_item` (the `ConsumeQueue.core` loop
calls it repeatedly until it returns `False` or the deadline passes). -/
def consumeTicks (now : Int) (maxRetries : Nat) :
    Nat → List SendQueueItem → List SendQueueItem
  | 0, items => items
  | n + 1, items => consumeTicks now maxRetries n
      (consume_queue_item now maxRetries items).1

/-! ## Incoming reconciler (`src/librarian_background/recieve_clone.py`) -/

/-- `hera_librarian.deletion.DeletionPolicy`. -/
inductive DeletionPolicy where
  | ALLOWED
  | DISALLOWED
deriving DecidableEq, Repr

/-- The content of one staged/committed file on a store, as far as the
reconciler can observe it (md5 digest and byte size). -/
structure StagedFile where
  md5 : String
  size : Int
deriving DecidableEq, Repr

/-- The result of `store.store_manager.path_info`: per §4.1 of the spec,
`path_info(staged_path) → {path, md5, size}`. -/
structure PathInfo where
  path : String
  md5 : String
  size : Int
deriving DecidableEq, Repr

/-- A `StoreMetadata` row together with its store manager's filesystem.
Modelled from the spec: the store-manager class is not among the given
sources; per §4.1 it exposes `path_info` (fails for a missing staged
path — the reconciler catches that as `TypeError`), `commit` (atomic move
of the staged path to the final path) and `unstage` (best-effort delete of
the staged path, a missing file is not an error). -/
structure RecvStore where
  id : Nat
  name : String
  staged : List (String × StagedFile)
  committed : List (String × StagedFile)
deriving DecidableEq, Repr

/-- `store_manager.path_info(p)`; `none` models the exception for an
unreadable staging path. -/
def RecvStore.path_info (s : RecvStore) (p : String) : Option PathInfo :=
  (s.staged.find? (fun q => q.1 == p)).map (fun q => ⟨p, q.2.md5, q.2.size⟩)

/-- `store_manager.commit(src, dst)`; `none` models a commit failure
(nothing staged at `src`). -/
def RecvStore.commit (s : RecvStore) (src dst : String) : Option RecvStore :=
  match s.staged.find? (fun q => q.1 == src) with
  | some q =>
      some { s with staged := s.staged.filter (fun r => !(r.1 == src)),
                    committed := s.committed ++ [(dst, q.2)] }
  | none => none

/-- `store_manager.unstage(p)`: best-effort delete of the staged path. -/
def RecvStore.unstage (s : RecvStore) (p : String) : RecvStore :=
  { s with staged := s.staged.filter (fun r => !(r.1 == p)) }

/-- An `IncomingTransfer` row (the fields the reconciler touches). -/
structure IncomingTransfer where
  id : Nat
  status : TransferStatus
  store_id : Option Nat
  staging_path : String
  store_path : String
  upload_name : String
  uploader : String
  source : String
  transfer_size : Int
  transfer_checksum : String
  end_time : Option Int
deriving DecidableEq, Repr

/-- A `File` row of the new server.  `File.new_file` is modelled from the
spec (§3, §4.6b): name is the identity; checksum/size/uploader/source are
the data the reconciler passes. -/
structure FileRow where
  name : String
  checksum : String
  size : Int
  uploader : String
  source : String
deriving DecidableEq, Repr

/-- An `Instance` row of the new server.  `Instance.new_instance` is
modelled from the spec (§3): an instance carries its path, file, store and
deletion policy. -/
structure InstanceRow where
  id : Nat
  path : String
  file_name : String
  store_id : Nat
  deletion_policy : DeletionPolicy
deriving DecidableEq, Repr

/-- A plain `logging` log line (level and message). -/
structure LogEntry where
  level : ErrorSeverity
  message : String
deriving DecidableEq, Repr

/-- The state touched by `RecieveClone.core`: the catalog tables plus the
store filesystems and the two logging sinks. -/
structure RecvState where
  transfers : List IncomingTransfer
  stores : List RecvStore
  files : List FileRow
  instances : List InstanceRow
  librarians : List String
  errors : List ErrorRow
  logs : List LogEntry
  next_instance_id : Nat
deriving DecidableEq, Repr

/-- Resolve `transfer.store` (the relationship on the row's store id). -/
def recvStoreLookup (st : RecvState) (sid : Option Nat) : Option RecvStore :=
  match sid with
  | none => none
  | some i => st.stores.find? (fun s => s.id == i)

/-- Write an updated store back into the state's store list. -/
def recvUpdateStore (stores : List RecvStore) (s : RecvStore) :
    List RecvStore :=
  stores.map (fun t => if t.id == s.id then s else t)

/-- The body of the `for transfer in ongoing_transfers` loop of
`RecieveClone.core`, for one transfer: returns the updated state and the
contribution to `all_transfers_succeeded` (`false` exactly when the body
set that flag to `False`).  The callback to the source librarian is a peer
HTTP call whose failure is only logged; here the contact succeeds whenever
the librarian row exists (its outcome never feeds back into the state the
claims are about). -/
def processIncoming (deletion_policy : DeletionPolicy) (now : Int)
    (st : RecvState) (t : IncomingTransfer) : RecvState × Bool :=
  match recvStoreLookup st t.store_id with
  | none =>
      let errs := log_to_database .CRITICAL .PROGRAMMING
        "Transfer has no store associated with it. Skipping for now, but this should never happen."
        st.errors
      ({ st with errors := errs }, false)
  | some store =>
    match store.path_info t.staging_path with
    | none =>
        let errs := log_to_database .ERROR .DATA_AVAILABILITY
          "Cannot get information about staging path. Skipping for now."
          st.errors
        ({ st with errors := errs }, false)
    | some path_info =>
      if path_info.md5 == t.transfer_checksum &&
         path_info.size == t.transfer_size then
        let startLog : LogEntry :=
          ⟨.INFO, "Transfer has completed. Moving file to store and creating instance."⟩
        match store.commit t.staging_path t.store_path with
        | none =>
            let moveFail : LogEntry :=
              ⟨.ERROR, "Failed to move file to store. Skipping for now."⟩
            ({ st with logs := st.logs ++ [startLog, moveFail] }, false)
        | some store1 =>
          let file : FileRow :=
            ⟨t.upload_name, t.transfer_checksum, t.transfer_size,
             t.uploader, t.source⟩
          let inst : InstanceRow :=
            ⟨st.next_instance_id, path_info.path, file.name, store.id,
             deletion_policy⟩
          let transfers' := st.transfers.map (fun u =>
            if u.id == t.id then
              { u with status := .COMPLETED, end_time := some now }
            else u)
          let callbackLog : LogEntry :=
            if st.librarians.contains t.source then
              ⟨.INFO, "Transfer has completed. Calling back to librarian."⟩
            else
              ⟨.ERROR, "Transfer has no source librarian. Cannot callback."⟩
          let store2 := store1.unstage t.staging_path
          ({ st with
             transfers := transfers',
             stores := recvUpdateStore st.stores store2,
             files := st.files ++ [file],
             instances := st.instances ++ [inst],
             next_instance_id := st.next_instance_id + 1,
             logs := st.logs ++ [startLog, callbackLog] }, true)
      else
        let skipLog : LogEntry :=
          ⟨.INFO, "Transfer has not yet completed. Skipping."⟩
        ({ st with logs := st.logs ++ [skipLog] }, true)

/-- `RecieveClone.core`: process every `IncomingTransfer` with
`status = ONGOING` (fetched once up front) and return the state together
with `all_transfers_succeeded`. -/
def RecieveClone.core (deletion_policy : DeletionPolicy) (now : Int)
    (st : RecvState) : RecvState × Bool :=
  let ongoing := st.transfers.filter (fun t => t.status == .ONGOING)
  ongoing.foldl
    (fun acc t =>
      let r := processIncoming deletion_policy now acc.1 t
      (r.1, acc.2 && r.2))
    (st, true)

/-! ## Standing orders (`src/server/librarian_server/search.py`) -/

/-- A `File` row of the old server, with the columns `select_files` reads
(`create_time` in seconds since an arbitrary epoch). -/
structure OFile where
  name : String
  create_time : Int
  size : Int
deriving DecidableEq, Repr

/-- A `FileEvent` marker row keyed by `(name, type)`. -/
structure FileEventRow where
  name : String
  etype : String
deriving DecidableEq, Repr

/-- A task registered with `the_task_manager`.  Modelled from the spec
(§4.7): the `UploaderTask` class and the task manager are not among the
given sources; an in-flight uploader task carries the destination store
path, the standing-order tag, and the recorded exception if one
occurred. -/
structure TaskRec where
  is_uploader : Bool
  store_path : String
  standing_order_name : String
  exception : Option String
deriving DecidableEq, Repr

/-- A `StandingOrder` row. -/
structure StandingOrderRow where
  name : String
  search : String
  conn_name : String
deriving DecidableEq, Repr

/-- `StandingOrder.event_type`:
`'standing_order_succeeded:' + self.name`. -/
def StandingOrderRow.event_type (o : StandingOrderRow) : String :=
  "standing_order_succeeded:" ++ o.name

/-- SQL `LIKE '%22130%'`: the name contains `22130` as a substring. -/
def strContainsSub (needle hay : String) : Bool :=
  hay.toList.tails.any (fun t => needle.toList.isPrefixOf t)

/-- SQL `LIKE 'zen%HH.uvc'`: prefix `zen`, then anything, then suffix
`HH.uvc`. -/
def likeZenHHuvc (s : String) : Bool :=
  s.startsWith "zen" && (s.drop 3).endsWith "HH.uvc"

/-- `14 days` in seconds. -/
def fourteenDays : Int := 14 * 86400

/-- `select_files` from `server/librarian_server/search.py`: the named
predicate dispatcher over the three built-in searches; anything else
raises `NotImplementedError`. -/
def select_files (now : Int) (files : List OFile) (search_string : String) :
    Except PyErr (List OFile) :=
  if search_string == "special-test-1" then
    .ok (files.filter (fun f =>
      f.create_time > now - fourteenDays && strContainsSub "22130" f.name))
  else if search_string == "special-test-2" then
    .ok (files.filter (fun f =>
      f.create_time > now - fourteenDays && likeZenHHuvc f.name))
  else if search_string == "empty-search" then
    .ok (files.filter (fun f => !(f.size == f.size)))
  else
    .error (.notImplementedError "general searching not actually implemented")

/-- `StandingOrder.get_files_to_copy`: the saved search, minus files that
already carry the order's success `FileEvent`, minus files matching an
in-flight uploader task tagged with this order that has no recorded
exception. -/
def get_files_to_copy (now : Int) (files : List OFile)
    (events : List FileEventRow) (tasks : List TaskRec)
    (order : StandingOrderRow) : Except PyErr (List OFile) :=
  match select_files now files order.search with
  | .error e => .error e
  | .ok query =>
    let already_done := (files.filter (fun f =>
      events.any (fun e => e.name == f.name && e.etype == order.event_type))).map
        (fun f => f.name)
    let query1 := query.filter (fun f => !(already_done.contains f.name))
    let already_launched := (tasks.filter (fun t =>
      t.is_uploader && order.name == t.standing_order_name &&
        t.exception == none)).map (fun t => pathBasename t.store_path)
    .ok (query1.filter (fun f => !(already_launched.contains f.name)))

/-- `StandingOrder.maybe_launch_copies`: calls
`launch_copy_by_file_name(file.name, conn_name, standing_order_name=name,
no_instance='return')` for each file yielded by `get_files_to_copy`.  The
result is the list of file names for which a copy launch is requested (the
launch itself is a collaborator; a missing instance only logs a
warning). -/
def maybe_launch_copies (now : Int) (files : List OFile)
    (events : List FileEventRow) (tasks : List TaskRec)
    (order : StandingOrderRow) : Except PyErr (List String) :=
  (get_files_to_copy now files events tasks order).map
    (fun l => l.map (fun f => f.name))

/-! ## delete_instance endpoint (`src/librarian_server/api/instances.py`) -/

/-- The body of `POST /api/v2/instances/delete_instance`. -/
structure InstanceDeleteRequest where
  instance_id : Nat
  instance_type : String
deriving DecidableEq, Repr

/-- Modelled from the spec: `InstanceAdministrationChangeResponse`
(`hera_librarian/models/instances.py` is not among the given sources) is a
pydantic response model with the fields `success : Bool` (required, per §7
every request-path response model carries a `success` bool) and
`instance_id`. -/
structure InstanceChangeResponse where
  success : Bool
  instance_id : Nat
deriving DecidableEq, Repr

/-- The mutable FastAPI `Response` object injected into the handler.  Its
HTTP status is `status_code`; the handler, however, assigns to the
misspelled attribute `response_conde`, which Python creates as a fresh
attribute without touching the status. -/
structure FastApiResponse where
  status_code : Nat
  response_conde : Option Nat
deriving DecidableEq, Repr

/-- The instance tables the endpoint dispatches over (`Instance` and
`RemoteInstance` rows by primary key). -/
structure InstDb where
  local_instances : List Nat
  remote_instances : List Nat
deriving DecidableEq, Repr

deriving instance DecidableEq for Except

/-- The observable outcome of the endpoint: the `Response` object, the
database, and either the returned body or the exception that escaped. -/
structure DeleteOutcome where
  response : FastApiResponse
  db : InstDb
  body : Except PyErr InstanceChangeResponse
deriving DecidableEq, Repr

/-- `delete_remote_instance` from `librarian_server/api/instances.py`.
The route decorator sets no `status_code`, so the injected `Response`
starts at FastAPI's default `200`.  The unknown-type and missing-row
branches assign `400` to the misspelled `response.response_conde`
attribute and construct the response model with the misspelled keyword
`succes=False`, leaving the required `success` field unset — pydantic
raises a validation error there. -/
def delete_remote_instance (db : InstDb) (req : InstanceDeleteRequest) :
    DeleteOutcome :=
  let response : FastApiResponse := { status_code := 200, response_conde := none }
  if req.instance_type == "local" then
    if db.local_instances.contains req.instance_id then
      { response := response,
        db := { db with local_instances :=
          db.local_instances.filter (fun i => !(i == req.instance_id)) },
        body := .ok { success := true, instance_id := req.instance_id } }
    else
      { response := { response with response_conde := some 400 },
        db := db, body := .error .validationError }
  else if req.instance_type == "remote" then
    if db.remote_instances.contains req.instance_id then
      { response := response,
        db := { db with remote_instances :=
          db.remote_instances.filter (fun i => !(i == req.instance_id)) },
        body := .ok { success := true, instance_id := req.instance_id } }
    else
      { response := { response with response_conde := some 400 },
        db := db, body := .error .validationError }
  else
    { response := { response with response_conde := some 400 },
      db := db, body := .error .validationError }

/-- The HTTP status the server actually sends for an outcome: the
`Response.status_code` on a normal return, `500` when an exception escaped
the handler. -/
def httpStatusOf (o : DeleteOutcome) : Nat :=
  match o.body with
  | .ok _ => o.response.status_code
  | .error _ => 500

/-! ## Theorems -/

/-- C10: for every request with strictly negative `file_size`,
`recommended_store` raises the `ServerError` `"file_size" must be
nonnegative` before any store is examined, for every catalog state. -/
theorem recommended_store_rejects_negative_file_size
    (stores : List RStore) (file_size : Int) (h : file_size < 0) :
    recommended_store stores file_size =
      .error (.serverError "\"file_size\" must be nonnegative") := by
  simp [recommended_store, h]

/-- Witness for `recommended_store_rejects_negative_file_size` at
`file_size = -1` on a nonempty catalog. -/
theorem recommended_store_rejects_negative_file_size_witness :
    recommended_store [⟨1, "store_a", "host_a", "/a", true, 200⟩] (-1) =
      .error (.serverError "\"file_size\" must be nonnegative") :=
  recommended_store_rejects_negative_file_size
    [⟨1, "store_a", "host_a", "/a", true, 200⟩] (-1) (by decide)

/-- C1: evaluation of `recommended_store` at the claim's two-store
scenario.  With the available stores `store_a` (200 bytes free) and
`store_b` (50 bytes free), in that query order, and `file_size = 150`, the
handler returns the *last iterated* store `store_b` (while reporting
`available = 200`), because `info['name'] = store.name` reads the leaked
loop variable instead of `most_avail_store` — the store with the maximum
free space is `store_a`.  With `file_size = 250` it raises the
`unable to find a store` error as the claim says. -/
theorem recommended_store_returns_last_iterated_store :
    recommended_store
        [⟨1, "store_a", "host_a", "/a", true, 200⟩,
         ⟨2, "store_b", "host_b", "/b", true, 50⟩] 150 =
      .ok ⟨"store_b", "host_b", "/b", 200⟩ ∧
    (∀ s ∈ [RStore.mk 1 "store_a" "host_a" "/a" true 200,
            RStore.mk 2 "store_b" "host_b" "/b" true 50],
       s.space ≤ 200 ∧ (s.space = 200 → s.name = "store_a")) ∧
    "store_b" ≠ "store_a" ∧
    recommended_store
        [⟨1, "store_a", "host_a", "/a", true, 200⟩,
         ⟨2, "store_b", "host_b", "/b", true, 50⟩] 250 =
      .error (.serverError "unable to find a store able to hold %d bytes") := by
  refine ⟨by decide, by decide, by decide, by decide⟩

/-- C2: evaluation of `RecieveClone.core` at the claim's happy-path input.
One ONGOING transfer with `staging_path = "staging/f1"`,
`store_path = "store/f1"`, matching checksum `"abc"` and size `100`: the
pass creates the `File` with the transfer's checksum and size, marks the
transfer COMPLETED, and gives the `Instance` the default DISALLOWED
policy — but the `Instance` is created at `path_info.path`, i.e. the
*staging* path `"staging/f1"` (which the pass then unstages), and *no*
instance row exists at the transfer's `store_path`, contradicting the
claim's `(store, store_path)` placement. -/
theorem recieve_clone_creates_instance_at_staging_path :
    (RecieveClone.core .DISALLOWED 7
        ⟨[⟨5, .ONGOING, some 1, "staging/f1", "store/f1", "f1", "up", "libA",
           100, "abc", none⟩],
         [⟨1, "st1", [("staging/f1", ⟨"abc", 100⟩)], []⟩],
         [], [], ["libA"], [], [], 0⟩).1.instances =
      [⟨0, "staging/f1", "f1", 1, .DISALLOWED⟩] ∧
    (RecieveClone.core .DISALLOWED 7
        ⟨[⟨5, .ONGOING, some 1, "staging/f1", "store/f1", "f1", "up", "libA",
           100, "abc", none⟩],
         [⟨1, "st1", [("staging/f1", ⟨"abc", 100⟩)], []⟩],
         [], [], ["libA"], [], [], 0⟩).1.instances.filter
      (fun i => i.path == "store/f1") = [] ∧
    (RecieveClone.core .DISALLOWED 7
        ⟨[⟨5, .ONGOING, some 1, "staging/f1", "store/f1", "f1", "up", "libA",
           100, "abc", none⟩],
         [⟨1, "st1", [("staging/f1", ⟨"abc", 100⟩)], []⟩],
         [], [], ["libA"], [], [], 0⟩).1.files =
      [⟨"f1", "abc", 100, "up", "libA"⟩] ∧
    (RecieveClone.core .DISALLOWED 7
        ⟨[⟨5, .ONGOING, some 1, "staging/f1", "store/f1", "f1", "up", "libA",
           100, "abc", none⟩],
         [⟨1, "st1", [("staging/f1", ⟨"abc", 100⟩)], []⟩],
         [], [], ["libA"], [], [], 0⟩).1.transfers.map
      (fun t => t.status) = [.COMPLETED] ∧
    "staging/f1" ≠ "store/f1" := by
  refine ⟨by decide, by decide, by decide, by decide, by decide⟩

/-- C3 counterexample: with the configured `complete_status = COMPLETED`
(any value other than STAGED) and a consumed, uncompleted queue item whose
probe returns COMPLETED, `check_on_consumed` raises
`ValueError("No other status than STAGED is supported ...")` — the child
transfer stays ONGOING and the exception propagates to the scheduler,
contradicting the claim for non-default configured values. -/
theorem check_on_consumed_nonstaged_raises_counterexample :
    check_on_consumed 5
        [⟨1, "dst", 0, 0, true, some 0, false, none, 0, false,
          [⟨10, .ONGOING, "s", "d"⟩], .COMPLETED, true, .ok⟩] .COMPLETED =
      { queue := [⟨1, "dst", 0, 0, true, some 0, false, none, 0, false,
          [⟨10, .ONGOING, "s", "d"⟩], .COMPLETED, true, .ok⟩],
        errors := [],
        raised := some (.valueError
          "No other status than STAGED is supported for checking on consumed"),
        returned := none } := by
  decide

/-- C4: evaluation of `check_on_consumed` at the claim's input — one
consumed, uncompleted queue item whose probe returns COMPLETED and whose
destination librarian is missing from the catalog.  The `AttributeError`
handler calls `log_to_database` without its required `session` argument,
so a `TypeError` propagates out of `check_on_consumed`; no CRITICAL row is
written; the row's `completed` flag does stay false. -/
theorem check_on_consumed_missing_librarian_typeerror :
    check_on_consumed 5
        [⟨2, "dstm", 0, 0, true, some 0, false, none, 0, false,
          [⟨11, .ONGOING, "s", "d"⟩], .COMPLETED, true, .missingFromCatalog⟩]
        .STAGED =
      { queue := [⟨2, "dstm", 0, 0, true, some 0, false, none, 0, false,
          [⟨11, .ONGOING, "s", "d"⟩], .COMPLETED, true, .missingFromCatalog⟩],
        errors := [],
        raised := some (.typeError
          "log_to_database() missing 1 required positional argument: session"),
        returned := none } := by
  decide

/-- C5: evaluation of `delete_remote_instance`.  Deleting an existing
local instance succeeds with `success=true` but HTTP status 200, not 201
(the route sets no `status_code`); for an unknown `instance_type` and for
a missing row the handler assigns the misspelled `response_conde`
attribute (leaving `status_code` at 200) and constructs the response model
with the misspelled `succes` keyword, so an unhandled validation error
yields HTTP 500, never the claimed 400 with `success=false`. -/
theorem delete_instance_http_status_codes :
    (httpStatusOf (delete_remote_instance ⟨[7], [9]⟩ ⟨7, "local"⟩) = 200 ∧
     (delete_remote_instance ⟨[7], [9]⟩ ⟨7, "local"⟩).body = .ok ⟨true, 7⟩ ∧
     (delete_remote_instance ⟨[7], [9]⟩ ⟨7, "local"⟩).db = ⟨[], [9]⟩) ∧
    (httpStatusOf (delete_remote_instance ⟨[7], [9]⟩ ⟨7, "bogus"⟩) = 500 ∧
     (delete_remote_instance ⟨[7], [9]⟩ ⟨7, "bogus"⟩).response.status_code = 200 ∧
     (delete_remote_instance ⟨[7], [9]⟩ ⟨7, "bogus"⟩).response.response_conde =
       some 400 ∧
     (delete_remote_instance ⟨[7], [9]⟩ ⟨7, "bogus"⟩).body =
       .error .validationError) ∧
    httpStatusOf (delete_remote_instance ⟨[7], [9]⟩ ⟨8, "local"⟩) = 500 ∧
    (200 ≠ 201) ∧ (500 ≠ 400) := by
  refine ⟨⟨by decide, by decide, by decide⟩,
          ⟨by decide, by decide, by decide, by decide⟩,
          by decide, by decide, by decide⟩

/-- C9: an ONGOING incoming transfer whose staged `(md5, size)` differ in
any component from `(transfer_checksum, transfer_size)` makes one
`RecieveClone.core` pass log at INFO level and change nothing: the state
is returned with only the INFO line appended (transfer still ONGOING, no
`File`/`Instance` created, stores untouched — no commit, no unstage) and
the pass reports success. -/
theorem recieve_clone_mismatch_no_change
    (dp : DeletionPolicy) (now : Int) (st : RecvState) (t : IncomingTransfer)
    (store : RecvStore) (pinfo : PathInfo)
    (htr : st.transfers = [t]) (hst : t.status = .ONGOING)
    (hstore : recvStoreLookup st t.store_id = some store)
    (hpi : store.path_info t.staging_path = some pinfo)
    (hmis : pinfo.md5 ≠ t.transfer_checksum ∨ pinfo.size ≠ t.transfer_size) :
    RecieveClone.core dp now st =
      ({ st with logs := st.logs ++
          [⟨.INFO, "Transfer has not yet completed. Skipping."⟩] }, true) := by
  have hcond : ¬ (pinfo.md5 = t.transfer_checksum ∧
      pinfo.size = t.transfer_size) := by
    rcases hmis with h | h
    · exact fun hc => h hc.1
    · exact fun hc => h hc.2
  simp only [RecieveClone.core, htr, hst, List.filter_cons, List.filter_nil]
  simp [processIncoming, hstore, hpi, hcond, htr]

/-- Witness for `recieve_clone_mismatch_no_change`: the spec's scenario 3,
a staged file of size 100 while the transfer row expects 101. -/
theorem recieve_clone_mismatch_no_change_witness :
    RecieveClone.core .DISALLOWED 7
        ⟨[⟨5, .ONGOING, some 1, "staging/f1", "store/f1", "f1", "up", "libA",
           101, "abc", none⟩],
         [⟨1, "st1", [("staging/f1", ⟨"abc", 100⟩)], []⟩],
         [], [], ["libA"], [], [], 0⟩ =
      (⟨[⟨5, .ONGOING, some 1, "staging/f1", "store/f1", "f1", "up", "libA",
          101, "abc", none⟩],
        [⟨1, "st1", [("staging/f1", ⟨"abc", 100⟩)], []⟩],
        [], [], ["libA"], [],
        [⟨.INFO, "Transfer has not yet completed. Skipping."⟩], 0⟩, true) :=
  recieve_clone_mismatch_no_change .DISALLOWED 7 _
    ⟨5, .ONGOING, some 1, "staging/f1", "store/f1", "f1", "up", "libA",
     101, "abc", none⟩
    ⟨1, "st1", [("staging/f1", ⟨"abc", 100⟩)], []⟩
    ⟨"staging/f1", "abc", 100⟩ rfl rfl rfl rfl (Or.inr (by decide))

/-- C3 (amended): for a consumed, uncompleted queue item whose probe
returns COMPLETED, `check_on_consumed` with the default
`complete_status = STAGED` sets every child transfer to STAGED and marks
the item completed when the destination librarian is reachable; a
peer-unavailability error is caught, logged as a WARNING `Error` row, and
not propagated (the item is retried later); but for any configured
`complete_status` other than STAGED the task raises `ValueError` instead
of updating the children. -/
theorem check_on_consumed_staged_updates_children
    (now : Int) (q : SendQueueItem) (cs : TransferStatus)
    (hc : q.consumed = true) (hnc : q.completed = false)
    (hp : q.probeStatus = .COMPLETED) :
    (q.peer = .ok →
      check_on_consumed now [q] .STAGED =
        { queue := [{ q with
            transfers := q.transfers.map (fun t => { t with status := .STAGED }),
            completed := true, completed_time := some now }],
          errors := [], raised := none, returned := some true }) ∧
    (q.peer = .unavailable →
      check_on_consumed now [q] .STAGED =
        { queue := [q],
          errors := [⟨.WARNING, .LIBRARIAN_NETWORK_AVAILABILITY,
            "Librarian was not available for contact. We will try again later."⟩],
          raised := none, returned := some true }) ∧
    (cs ≠ .STAGED →
      check_on_consumed now [q] cs =
        { queue := [q], errors := [],
          raised := some (.valueError
            "No other status than STAGED is supported for checking on consumed"),
          returned := none }) := by
  refine ⟨fun h => ?_, fun h => ?_, fun h => ?_⟩ <;>
    simp [check_on_consumed, checkConsumedSelect, hc, hnc, checkOnConsumedGo,
      checkOnConsumedItem, hp, SendQueueItem.update_transfer_status, h,
      log_to_database]

/-- Witness for `check_on_consumed_staged_updates_children`: the reachable
peer case at a concrete consumed item. -/
theorem check_on_consumed_staged_updates_children_witness :
    check_on_consumed 5
        [⟨1, "dst", 0, 0, true, some 0, false, none, 0, false,
          [⟨10, .ONGOING, "s", "d"⟩], .COMPLETED, true, .ok⟩] .STAGED =
      { queue := [⟨1, "dst", 0, 0, true, some 0, true, some 5, 0, false,
          [⟨10, .STAGED, "s", "d"⟩], .COMPLETED, true, .ok⟩],
        errors := [], raised := none, returned := some true } :=
  (check_on_consumed_staged_updates_children 5
    ⟨1, "dst", 0, 0, true, some 0, false, none, 0, false,
     [⟨10, .ONGOING, "s", "d"⟩], .COMPLETED, true, .ok⟩ .COMPLETED
    rfl rfl rfl).1 rfl

/-- Helper: whatever `consume_queue_item`'s `SELECT` returns satisfies the
`completed=False ∧ consumed=False` filter. -/
lemma selectBestIdx_selects (items : List SendQueueItem) (i : Nat)
    (q : SendQueueItem) (h : selectBestIdx items = some (i, q)) :
    consumeSelect q = true := by
  induction items generalizing i q with
  | nil => simp [selectBestIdx] at h
  | cons a rest ih =>
    simp only [selectBestIdx] at h
    split at h
    next hr =>
      split at h
      next ha =>
        injection h with h
        cases h
        exact ha
      next ha => exact absurd h (by simp)
    next j p hr =>
      split at h
      next ha =>
        split at h
        next hlt =>
          injection h with h
          cases h
          exact ih _ _ hr
        next hlt =>
          injection h with h
          cases h
          exact ha
      next ha =>
        injection h with h
        cases h
        exact ih _ _ hr

/-- C6: when the selected queue item's `batch_transfer` fails,
`consume_queue_item` increments `retries` by one and leaves
`consumed=false`; once the new `retries` exceeds `max_async_send_retries`
the item is failed (`failed=true`, `completed=true`, every child transfer
FAILED), and otherwise the failure flags and children are untouched.
Concretely, with an always-failing manager and `max_async_send_retries=2`,
three consumer ticks leave the item with `retries=3`, `failed=true`,
`completed=true`, `consumed=false`, and the child transfer FAILED. -/
theorem consume_queue_item_failure_retries :
    (∀ (now : Int) (maxRetries : Nat) (items : List SendQueueItem)
       (i : Nat) (q : SendQueueItem),
       selectBestIdx items = some (i, q) → q.batchSucceeds = false →
       ∃ q', consume_queue_item now maxRetries items = (items.set i q', true) ∧
         q'.retries = q.retries + 1 ∧ q'.consumed = false ∧
         (q.retries + 1 > maxRetries →
           q'.failed = true ∧ q'.completed = true ∧
           ∀ t ∈ q'.transfers, t.status = .FAILED) ∧
         (¬ q.retries + 1 > maxRetries →
           q'.failed = q.failed ∧ q'.completed = q.completed ∧
           q'.transfers = q.transfers)) ∧
    consumeTicks 9 2 3
        [⟨3, "dst", 5, 0, false, none, false, none, 0, false,
          [⟨12, .ONGOING, "s", "d"⟩], .INITIATED, false, .ok⟩] =
      [⟨3, "dst", 5, 0, false, none, true, none, 3, true,
        [⟨12, .FAILED, "s", "d"⟩], .INITIATED, false, .ok⟩] := by
  constructor
  · intro now maxRetries items i q hsel hb
    have hq := selectBestIdx_selects items i q hsel
    simp only [consumeSelect, Bool.and_eq_true, Bool.not_eq_true'] at hq
    by_cases hr : q.retries + 1 > maxRetries
    · refine ⟨({ q with retries := q.retries + 1 } : SendQueueItem).fail, ?_,
        rfl, hq.2, fun _ => ⟨rfl, rfl, ?_⟩, fun hn => absurd hr hn⟩
      · simp [consume_queue_item, hsel, hb, SendQueueItem.fail, hr]
      · intro t ht
        simp only [SendQueueItem.fail, List.mem_map] at ht
        obtain ⟨u, _, hu⟩ := ht
        rw [← hu]
    · refine ⟨{ q with retries := q.retries + 1 }, ?_, rfl, hq.2,
        fun hx => absurd hx hr, fun _ => ⟨rfl, rfl, rfl⟩⟩
      simp [consume_queue_item, hsel, hb, hr]
  · decide

/-- Witness for `consume_queue_item_failure_retries`: one failing tick on
an item that already has `retries = 2` with `max_async_send_retries = 2`
exhausts the retries and fails the item and its child transfer. -/
theorem consume_queue_item_failure_retries_witness :
    ∃ q', consume_queue_item 9 2
        [⟨4, "dst", 5, 0, false, none, false, none, 2, false,
          [⟨13, .ONGOING, "s", "d"⟩], .INITIATED, false, .ok⟩] =
      ([⟨4, "dst", 5, 0, false, none, false, none, 2, false,
         [⟨13, .ONGOING, "s", "d"⟩], .INITIATED, false, .ok⟩].set 0 q', true) ∧
      q'.retries = 3 ∧ q'.consumed = false ∧ q'.failed = true ∧
      q'.completed = true ∧ ∀ t ∈ q'.transfers, t.status = .FAILED := by
  obtain ⟨q', h1, h2, h3, h4, h5⟩ :=
    consume_queue_item_failure_retries.1 9 2
      [⟨4, "dst", 5, 0, false, none, false, none, 2, false,
        [⟨13, .ONGOING, "s", "d"⟩], .INITIATED, false, .ok⟩] 0
      ⟨4, "dst", 5, 0, false, none, false, none, 2, false,
       [⟨13, .ONGOING, "s", "d"⟩], .INITIATED, false, .ok⟩
      (by decide) (by decide)
  exact ⟨q', h1, h2, h3, (h4 (by decide)).1, (h4 (by decide)).2.1,
    (h4 (by decide)).2.2⟩

/-- Helper: every file yielded by `select_files` comes from the catalog's
file table. -/
lemma select_files_mem (now : Int) (files : List OFile) (s : String)
    (A : List OFile) (h : select_files now files s = .ok A) :
    ∀ f ∈ A, f ∈ files := by
  unfold select_files at h
  split_ifs at h
  · injection h with h; subst h; exact fun f hf => (List.mem_filter.mp hf).1
  · injection h with h; subst h; exact fun f hf => (List.mem_filter.mp hf).1
  · injection h with h; subst h; exact fun f hf => (List.mem_filter.mp hf).1

/-- Helper: the `already_done` name list computed by `get_files_to_copy`
contains a catalog file's name exactly when a success `FileEvent` for that
name and the order's event type exists. -/
lemma standingOrderDoneNames (files : List OFile) (events : List FileEventRow)
    (order : StandingOrderRow) (f : OFile) (hf : f ∈ files) :
    ((files.filter (fun g =>
        events.any (fun e => e.name == g.name && e.etype == order.event_type))).map
      (fun g => g.name)).contains f.name = true ↔
    ∃ e ∈ events, e.name = f.name ∧ e.etype = order.event_type := by
  constructor
  · intro h
    have hmem : f.name ∈ (files.filter (fun g =>
        events.any (fun e => e.name == g.name && e.etype == order.event_type))).map
        (fun g => g.name) := by simpa using h
    simp only [List.mem_map, List.mem_filter, List.any_eq_true] at hmem
    obtain ⟨g, ⟨_, e, he, hee⟩, hgf⟩ := hmem
    simp only [Bool.and_eq_true, beq_iff_eq] at hee
    exact ⟨e, he, by rw [hee.1, hgf], hee.2⟩
  · rintro ⟨e, he, hen, het⟩
    have hmem : f.name ∈ (files.filter (fun g =>
        events.any (fun e => e.name == g.name && e.etype == order.event_type))).map
        (fun g => g.name) := by
      simp only [List.mem_map, List.mem_filter, List.any_eq_true]
      exact ⟨f, ⟨hf, e, he, by simp [hen, het]⟩, rfl⟩
    simpa using hmem

/-- Helper: the `already_launched` basename set computed by
`get_files_to_copy` contains a name exactly when an in-flight uploader
task tagged with the order and without a recorded exception has that
basename. -/
lemma standingOrderLaunchedNames (tasks : List TaskRec)
    (order : StandingOrderRow) (name : String) :
    ((tasks.filter (fun t => t.is_uploader && order.name == t.standing_order_name &&
        t.exception == none)).map (fun t => pathBasename t.store_path)).contains
      name = true ↔
    ∃ t ∈ tasks, t.is_uploader = true ∧ t.standing_order_name = order.name ∧
      t.exception = none ∧ pathBasename t.store_path = name := by
  constructor
  · intro h
    have hmem : name ∈ (tasks.filter (fun t =>
        t.is_uploader && order.name == t.standing_order_name &&
          t.exception == none)).map (fun t => pathBasename t.store_path) := by
      simpa using h
    simp only [List.mem_map, List.mem_filter, Bool.and_eq_true, beq_iff_eq]
      at hmem
    obtain ⟨t, ⟨ht, ⟨hu, hso⟩, hexc⟩, hb⟩ := hmem
    exact ⟨t, ht, hu, hso.symm, hexc, hb⟩
  · rintro ⟨t, ht, hu, hso, hexc, hb⟩
    have hmem : name ∈ (tasks.filter (fun t =>
        t.is_uploader && order.name == t.standing_order_name &&
          t.exception == none)).map (fun t => pathBasename t.store_path) := by
      simp only [List.mem_map, List.mem_filter, Bool.and_eq_true, beq_iff_eq]
      exact ⟨t, ⟨ht, ⟨hu, hso.symm⟩, hexc⟩, hb⟩
    simpa using hmem

/-- C8: one evaluation of a standing order launches a copy for exactly the
files of the order's search result that have no
`standing_order_succeeded:<name>` `FileEvent` and no in-flight uploader
task (tagged with this order, without a recorded exception) matching their
name; concretely, with 3 matching files of which one has the success event
and one has an in-flight task, exactly one copy (for the third file) is
launched. -/
theorem standing_order_launch_set :
    (∀ (now : Int) (files : List OFile) (events : List FileEventRow)
       (tasks : List TaskRec) (order : StandingOrderRow)
       (A : List OFile) (res : List String),
       select_files now files order.search = .ok A →
       maybe_launch_copies now files events tasks order = .ok res →
       ∀ name, name ∈ res ↔
         ∃ f ∈ A, f.name = name ∧
           ¬ (∃ e ∈ events, e.name = name ∧ e.etype = order.event_type) ∧
           ¬ (∃ t ∈ tasks, t.is_uploader = true ∧
                t.standing_order_name = order.name ∧ t.exception = none ∧
                pathBasename t.store_path = name)) ∧
    maybe_launch_copies 1000000
        [⟨"a22130x", 999999, 1⟩, ⟨"b22130y", 999999, 1⟩, ⟨"c22130z", 999999, 1⟩]
        [⟨"a22130x", "standing_order_succeeded:ord1"⟩]
        [⟨true, "up/b22130y", "ord1", none⟩]
        ⟨"ord1", "special-test-1", "dest"⟩ = .ok ["c22130z"] := by
  constructor
  · intro now files events tasks order A res hsel hrun name
    have hsub := select_files_mem now files order.search A hsel
    unfold maybe_launch_copies get_files_to_copy at hrun
    rw [hsel] at hrun
    simp only [Except.map] at hrun
    injection hrun with hrun
    subst hrun
    rw [List.mem_map]
    constructor
    · rintro ⟨f, hf, rfl⟩
      simp only [List.mem_filter] at hf
      obtain ⟨⟨hfA, h1⟩, h2⟩ := hf
      refine ⟨f, hfA, rfl, ?_, ?_⟩
      · intro hex
        have hc := (standingOrderDoneNames files events order f
          (hsub f hfA)).mpr hex
        rw [hc] at h1
        exact absurd h1 (by simp)
      · intro hex
        have hc := (standingOrderLaunchedNames tasks order f.name).mpr hex
        rw [hc] at h2
        exact absurd h2 (by simp)
    · rintro ⟨f, hfA, rfl, hne, hnt⟩
      refine ⟨f, ?_, rfl⟩
      simp only [List.mem_filter]
      refine ⟨⟨hfA, ?_⟩, ?_⟩
      · rw [Bool.not_eq_true']
        by_cases hcon : ((files.filter (fun g =>
            events.any (fun e => e.name == g.name &&
              e.etype == order.event_type))).map
            (fun g => g.name)).contains f.name = true
        · exact absurd ((standingOrderDoneNames files events order f
            (hsub f hfA)).mp hcon) hne
        · simpa using hcon
      · rw [Bool.not_eq_true']
        by_cases hcon : ((tasks.filter (fun t =>
            t.is_uploader && order.name == t.standing_order_name &&
              t.exception == none)).map
            (fun t => pathBasename t.store_path)).contains f.name = true
        · exact absurd ((standingOrderLaunchedNames tasks order
            f.name).mp hcon) hnt
        · simpa using hcon
  · decide

/-- Witness for `standing_order_launch_set`: the launch-set
characterization instantiated at the concrete 3-file scenario. -/
theorem standing_order_launch_set_witness :
    "c22130z" ∈ ["c22130z"] ↔
      ∃ f ∈ [OFile.mk "a22130x" 999999 1, OFile.mk "b22130y" 999999 1,
             OFile.mk "c22130z" 999999 1],
        f.name = "c22130z" ∧
        ¬ (∃ e ∈ [FileEventRow.mk "a22130x" "standing_order_succeeded:ord1"],
             e.name = "c22130z" ∧
             e.etype = (StandingOrderRow.mk "ord1" "special-test-1"
               "dest").event_type) ∧
        ¬ (∃ t ∈ [TaskRec.mk true "up/b22130y" "ord1" none],
             t.is_uploader = true ∧ t.standing_order_name = "ord1" ∧
             t.exception = none ∧ pathBasename t.store_path = "c22130z") :=
  standing_order_launch_set.1 1000000
    [⟨"a22130x", 999999, 1⟩, ⟨"b22130y", 999999, 1⟩, ⟨"c22130z", 999999, 1⟩]
    [⟨"a22130x", "standing_order_succeeded:ord1"⟩]
    [⟨true, "up/b22130y", "ord1", none⟩]
    ⟨"ord1", "special-test-1", "dest"⟩
    [⟨"a22130x", 999999, 1⟩, ⟨"b22130y", 999999, 1⟩, ⟨"c22130z", 999999, 1⟩]
    ["c22130z"] (by decide) standing_order_launch_set.2 "c22130z"

/-- Helper: a filter that returns a singleton contains that element, and
the element satisfies the predicate. -/
lemma filter_eq_singleton_mem {α : Type} {p : α → Bool} {l : List α} {a : α}
    (h : l.filter p = [a]) : a ∈ l ∧ p a = true := by
  have ha : a ∈ l.filter p := by rw [h]; exact List.mem_singleton_self a
  exact ⟨List.mem_of_mem_filter ha, List.of_mem_filter ha⟩

/-- Helper: a filter that returns a singleton admits no other matching
element. -/
lemma filter_eq_singleton_unique {α : Type} {p : α → Bool} {l : List α}
    {a : α} (h : l.filter p = [a]) : ∀ x ∈ l, p x = true → x = a := by
  intro x hx hpx
  have hm : x ∈ l.filter p := List.mem_filter.mpr ⟨hx, hpx⟩
  rw [h] at hm
  exact List.mem_singleton.mp hm

/-- Helper: a successful `Store.get_by_name` means the name filter over
the store table is a singleton. -/
lemma getByName_ok_filter {stores : List UStore} {name : String}
    {store : UStore} (h : getByName stores name = .ok store) :
    stores.filter (fun s => s.name == name) = [store] := by
  unfold getByName at h
  split at h
  next => exact Except.noConfusion h
  next s heq => injection h with h; rw [heq, h]
  next => exact Except.noConfusion h

/-- Helper: conversely, a singleton name filter makes `Store.get_by_name`
succeed with that store. -/
lemma getByName_of_filter {stores : List UStore} {name : String}
    {store : UStore}
    (h : stores.filter (fun s => s.name == name) = [store]) :
    getByName stores name = .ok store := by
  unfold getByName
  rw [h]

/-- Helper: with no duplicate store ids, members with equal ids are
equal. -/
lemma nodup_ids_inj {l : List UStore}
    (h : (l.map (fun s => s.id)).Nodup) {x y : UStore}
    (hx : x ∈ l) (hy : y ∈ l) (hxy : x.id = y.id) : x = y :=
  List.inj_on_of_nodup_map h hx hy hxy

/-- Helper: mapping commutes with a filter whose value the map
preserves. -/
lemma filter_map_of_pred_inv {α : Type} (f : α → α) (p : α → Bool)
    (l : List α) (h : ∀ x ∈ l, p (f x) = p x) :
    (l.map f).filter p = (l.filter p).map f := by
  induction l with
  | nil => rfl
  | cons a t ih =>
    have ih' := ih (fun x hx => h x (List.mem_cons_of_mem a hx))
    simp only [List.map_cons, List.filter_cons, h a (List.mem_cons_self a t)]
    cases hpa : p a
    · simp [hpa, ih']
    · simp [hpa, ih']

/-- Helper: after removing every entry with a staged key, appending a
fresh entry for it makes the lookup return exactly that entry. -/
lemma alookup_filtered_append (l : List (String × UploadPathInfo))
    (sp : String) (i : UploadPathInfo) :
    alookup (l.filter (fun q => !(q.1 == sp)) ++ [(sp, i)]) sp = some i := by
  induction l with
  | nil => simp [alookup]
  | cons a t ih =>
    cases ha : (a.1 == sp)
    · simp [alookup, List.filter_cons, ha, List.find?, ih]
    · simp [alookup, List.filter_cons, ha, ih]

/-- Helper: filtering is idempotent. -/
lemma filter_idem {α : Type} (p : α → Bool) (l : List α) :
    (l.filter p).filter p = l.filter p := by
  simp [List.filter_filter]

/-- Helper: after a `merge`, the `FileInstance` key is present. -/
lemma mergeInst_contains (k : InstKey) (l : List InstKey) :
    (mergeInst k l).contains k = true := by
  unfold mergeInst
  by_cases h : l.contains k = true
  · rw [if_pos h]; exact h
  · rw [if_neg h]; simp

/-- Helper: the retried `complete_upload` call.  `s0stores` is the store
table the first call saw, `store0` the store it resolved, and `W` the
store object it wrote back (with the stage path purged from its staging
area); on `s1` — whose staged copy has been re-uploaded with matching
size and md5 — the call resolves the same store, passes the size/md5
validation, finds the existing `FileInstance`, deletes the staged copy
and returns exactly `s1`. -/
lemma complete_upload_retry
    (s1 : UState) (s0stores : List UStore) (args : UploadArgs)
    (src : Option String) (store0 W : UStore) (info : UploadPathInfo)
    (hids : (s0stores.map (fun s => s.id)).Nodup)
    (hfil : s0stores.filter (fun s => s.name == args.store_name) = [store0])
    (hWid : W.id = store0.id) (hWname : W.name = store0.name)
    (hWstag : W.staging = store0.staging.filter
      (fun q => !(q.1 == stagePathFor args.size args.md5)))
    (hs : s1.stores = updateStore s0stores W)
    (hinst : s1.instances.contains
      (store0.id, pathDirname args.dest_store_path,
       pathBasename args.dest_store_path) = true)
    (hsz : info.size = args.size) (hmd : info.md5 = args.md5) :
    complete_upload
      (restageUpload s1 args.store_name (stagePathFor args.size args.md5) info)
      args src = .ok s1 := by
  have hmem : store0 ∈ s0stores := (filter_eq_singleton_mem hfil).1
  have hp0 : (store0.name == args.store_name) = true :=
    (filter_eq_singleton_mem hfil).2
  have huniq := filter_eq_singleton_unique hfil
  have hid0 : (store0.id == W.id) = true := beq_iff_eq.mpr hWid.symm
  have hWp : (W.name == args.store_name) = true := by rw [hWname]; exact hp0
  -- the restage map preserves the name predicate pointwise
  have hinv : ∀ x ∈ s0stores,
      (((fun s : UStore => if s.name == args.store_name
          then { s with staging := s.staging ++
            [(stagePathFor args.size args.md5, info)] } else s)
        (if x.id == W.id then W else x)).name == args.store_name)
        = (x.name == args.store_name) := by
    intro x hx
    dsimp only
    by_cases hid : (x.id == W.id) = true
    · have hx0 : x = store0 := nodup_ids_inj hids hx hmem
        (by rw [beq_iff_eq.mp hid, hWid])
      rw [if_pos hid, if_pos hWp]
      dsimp only
      rw [hWp, hx0, hp0]
    · rw [if_neg hid]
      cases hxp : (x.name == args.store_name)
      · simpa using hxp
      · exfalso
        exact hid (by rw [huniq x hx hxp]; exact hid0)
  -- the second call resolves the re-staged store
  have hfil2 : ((restageUpload s1 args.store_name
      (stagePathFor args.size args.md5) info).stores).filter
      (fun s => s.name == args.store_name) =
      [{ W with staging := W.staging ++
        [(stagePathFor args.size args.md5, info)] }] := by
    simp only [restageUpload]
    rw [hs]
    simp only [updateStore, List.map_map]
    rw [filter_map_of_pred_inv _ _ _ hinv, hfil]
    simp only [List.map_cons, List.map_nil, Function.comp_apply]
    rw [if_pos hid0]
    rw [if_pos hWp]
  have hgb2 : getByName (restageUpload s1 args.store_name
      (stagePathFor args.size args.md5) info).stores args.store_name =
      .ok { W with staging := W.staging ++
        [(stagePathFor args.size args.md5, info)] } :=
    getByName_of_filter hfil2
  -- the re-staged entry is what the lookup finds
  have hlook : alookup (W.staging ++
      [(stagePathFor args.size args.md5, info)])
      (stagePathFor args.size args.md5) = some info := by
    rw [hWstag]
    exact alookup_filtered_append _ _ _
  -- deleting the staged copy restores the written-back store
  have hstg2 : (W.staging ++ [(stagePathFor args.size args.md5, info)]).filter
      (fun q => !(q.1 == stagePathFor args.size args.md5)) = W.staging := by
    rw [List.filter_append, hWstag, filter_idem]
    simp
  have hdel : storeDelete { W with staging := W.staging ++
      [(stagePathFor args.size args.md5, info)] }
      (stagePathFor args.size args.md5) = W := by
    simp only [storeDelete]
    rw [hstg2]
  -- writing the restored store back restores the whole store table
  have hupd : updateStore (restageUpload s1 args.store_name
      (stagePathFor args.size args.md5) info).stores W = s1.stores := by
    simp only [restageUpload]
    rw [hs]
    simp only [updateStore, List.map_map]
    apply List.map_congr_left
    intro x hx
    simp only [Function.comp_apply]
    by_cases hid : (x.id == W.id) = true
    · rw [if_pos hid]
      rw [if_pos hWp]
      rw [if_pos (beq_self_eq_true W.id)]
    · rw [if_neg hid]
      cases hxp : (x.name == args.store_name)
      · simp [hid]
      · exact absurd (by rw [huniq x hx hxp]; exact hid0) hid
  have hinst2 : (restageUpload s1 args.store_name
      (stagePathFor args.size args.md5) info).instances.contains
      (W.id, pathDirname args.dest_store_path,
       pathBasename args.dest_store_path) = true := by
    show s1.instances.contains _ = true
    rw [hWid]
    exact hinst
  simp only [complete_upload, hgb2, hlook, hsz, hmd, ne_eq,
    not_true_eq_false, if_false, hinst2, if_true]
  rw [hdel, hupd]
  simp only [restageUpload]

/-- C7: calling `complete_upload` a second time with the same
`(store, dest_store_path, size, md5)` after a successful first call —
with the staged copy re-uploaded, since the endpoint reads the staged file
before anything else — is a no-op on the catalog: the `FileInstance`
created (or found) by the first call makes the second call delete the
staged copy and return success with the post-state of the first call
unchanged (no move, no `Observation`/`File`/`FileInstance` row created or
modified). -/
theorem complete_upload_second_call_noop
    (s0 s1 : UState) (args : UploadArgs) (src : Option String)
    (info : UploadPathInfo)
    (hids : (s0.stores.map (fun s => s.id)).Nodup)
    (h1 : complete_upload s0 args src = .ok s1)
    (hsz : info.size = args.size) (hmd : info.md5 = args.md5) :
    complete_upload
      (restageUpload s1 args.store_name (stagePathFor args.size args.md5) info)
      args src = .ok s1 := by
  simp only [complete_upload] at h1
  split at h1
  next => exact Except.noConfusion h1
  next store0 heq =>
    split at h1
    next => exact Except.noConfusion h1
    next info0 heq2 =>
      split_ifs at h1 with hsz0 hmd0 hcont
      · -- first call hit the already-present FileInstance
        injection h1 with h1
        subst h1
        exact complete_upload_retry _ s0.stores args src store0
          (storeDelete store0 (stagePathFor args.size args.md5)) info hids
          (getByName_ok_filter heq) rfl rfl rfl rfl hcont hsz hmd
      · -- first call moved the staged file and merged the rows
        injection h1 with h1
        subst h1
        have hW : storeMove store0 (stagePathFor args.size args.md5)
            args.dest_store_path =
            { store0 with
              staging := store0.staging.filter
                (fun p => !(p.1 == stagePathFor args.size args.md5)),
              files := store0.files ++ [(args.dest_store_path, info0)] } := by
          simp only [storeMove, heq2]
        refine complete_upload_retry _ s0.stores args src store0
          (storeMove store0 (stagePathFor args.size args.md5)
            args.dest_store_path) info hids
          (getByName_ok_filter heq) (by rw [hW]) (by rw [hW]) (by rw [hW])
          rfl ?_ hsz hmd
        show (mergeInst _ s0.instances).contains _ = true
        exact mergeInst_contains _ _

/-- Witness for `complete_upload_second_call_noop`: a concrete successful
upload of `dir/f1` to store `st1`, re-staged and retried. -/
theorem complete_upload_second_call_noop_witness :
    complete_upload
      (restageUpload
        ⟨[⟨1, "st1", [], [("dir/f1", ⟨"t", 100, "md5x"⟩)]⟩], [⟨42, 0⟩],
         [⟨"f1", "t", 42, some "src", 100, "md5x", none⟩], [(1, "dir", "f1")]⟩
        "st1" (stagePathFor 100 "md5x") ⟨"t", 100, "md5x"⟩)
      ⟨"st1", 100, "md5x", 42, 0, "dir/f1", none⟩ (some "src") =
      .ok ⟨[⟨1, "st1", [], [("dir/f1", ⟨"t", 100, "md5x"⟩)]⟩], [⟨42, 0⟩],
           [⟨"f1", "t", 42, some "src", 100, "md5x", none⟩],
           [(1, "dir", "f1")]⟩ :=
  complete_upload_second_call_noop
    ⟨[⟨1, "st1", [("upload_100_md5x.staging", ⟨"t", 100, "md5x"⟩)], []⟩],
     [], [], []⟩
    ⟨[⟨1, "st1", [], [("dir/f1", ⟨"t", 100, "md5x"⟩)]⟩], [⟨42, 0⟩],
     [⟨"f1", "t", 42, some "src", 100, "md5x", none⟩], [(1, "dir", "f1")]⟩
    ⟨"st1", 100, "md5x", 42, 0, "dir/f1", none⟩ (some "src")
    ⟨"t", 100, "md5x"⟩ (by decide) (by decide) rfl rfl

end Librarian
